import Mathlib

/-!
Shallow embedding of the smoltalk tool-augmented conversation engine
(src/smoltalk/toolbox.py and src/smoltalk/openairouter.py).

The engine (`Toolbox.get_response`) is embedded as a fuel-indexed
recursive function over an explicit environment supplying the remote
model's replies and the tools' outcomes; the descriptor generator
(`function_to_dict`) is embedded as a pure function over introspection
data of a Python callable; the fan-out coordinator
(`create_chat_completion`) is modelled at the level of which conversation
list each branch observes.  Theorems below settle the specified
properties of normalization, tool dispatch, request construction,
descriptor generation and fan-out.
-/

/-- JSON-like Python values threaded through the engine: tool results,
error payloads and remote response bodies.  Numbers are modelled as
integers; no property below depends on float formatting. -/
inductive Json where
  | null
  | bool (b : Bool)
  | num (n : Int)
  | str (s : String)
  | arr (elems : List Json)
  | obj (fields : List (String × Json))

/-- one tool_call entry of an assistant message: tool_call["id"],
tool_call["function"]["name"] and tool_call["function"]["arguments"]
(the nested "function" object is flattened into two fields). -/
structure ToolCallReq where
  id : String
  fname : String
  arguments : String
deriving DecidableEq

/-- ChatMessage (toolbox.py lines 11-16): pydantic model with a role, an
optional content, optional tool_calls, tool_call_id and name. -/
structure ChatMessage where
  role : String
  content : Option String := none
  tool_calls : Option (List ToolCallReq) := none
  tool_call_id : Option String := none
  name : Option String := none
deriving DecidableEq

/-- role test of the normalization loop (toolbox.py line 90):
messages[n].role in ["system", "developer"]. -/
def isSysDev (m : ChatMessage) : Bool :=
  m.role == "system" || m.role == "developer"

/-- the for/pop/break loop at the top of get_response (toolbox.py lines
89-95): scan the list from index 0 and remove the first message whose
role is system or developer (the loop breaks right after the pop, so at
most one message is removed, wherever it sits). -/
def popFirstSysDev : List ChatMessage → List ChatMessage
  | [] => []
  | m :: rest => if isSysDev m then rest else m :: popFirstSysDev rest

/-- Python truthiness of self.system_prompt: None and "" are falsy, any
other string is truthy (toolbox.py line 97, `if self.system_prompt:`). -/
def spTruthy : Option String → Bool
  | none => false
  | some s => !(s == "")

/-- the message inserted at position 0 (toolbox.py line 98):
ChatMessage(role="system", content=self.system_prompt). -/
def sysMsgOf (s : String) : ChatMessage :=
  { role := "system", content := some s }

/-- system-prompt normalization prefix of get_response (toolbox.py lines
89-98): pop the first system/developer message, then insert the
configured system prompt at position 0 when it is truthy. -/
def normalizeConv (sp : Option String) (msgs : List ChatMessage) : List ChatMessage :=
  match sp with
  | none => popFirstSysDev msgs
  | some s => if s == "" then popFirstSysDev msgs else sysMsgOf s :: popFirstSysDev msgs

/-- number of system/developer messages anywhere in a conversation. -/
def countSysDev (msgs : List ChatMessage) : Nat :=
  (msgs.filter isSysDev).length

/-- length of the leading run of system/developer messages. -/
def leadingSysDev : List ChatMessage → Nat
  | [] => 0
  | m :: rest => if isSysDev m then leadingSysDev rest + 1 else 0

/-- conversation observed by fan-out branch i when its normalization
starts.  create_chat_completion (openairouter.py lines 14-22) builds its
n get_response coroutines over the same chatRequest.messages list — line
18 passes the list object itself, no copy is made — and asyncio.gather
starts the tasks in creation order, each running synchronously up to its
first await (the POST to the completion endpoint), i.e. through the
whole in-place normalization step.  Branch i therefore starts from the
input list as left by the i earlier branches' normalizations. -/
def branchInput (sp : Option String) (msgs : List ChatMessage) : Nat → List ChatMessage
  | 0 => msgs
  | i + 1 => normalizeConv sp (branchInput sp msgs i)

/-- a user message used as a concrete input below. -/
def userHi : ChatMessage := { role := "user", content := some "hi" }

/-- Python values that flow through function_to_dict's param_dict slots:
None, a str, or a list (the enum produced by list(literal_eval(...))). -/
inductive PyVal where
  | vnone
  | vstr (s : String)
  | vlist (elems : List PyVal)

/-- isinstance(v, str) on a param_dict slot (toolbox.py line 316). -/
def PyVal.isStr : PyVal → Bool
  | PyVal.vstr _ => true
  | _ => false

/-- one entry of inspect.signature(f).parameters: the parameter name, the
__name__ of its annotation (inspect.Parameter always exposes an
annotation attribute, so the hasattr branch of toolbox.py line 282 is
always taken; an unannotated parameter yields "_empty"), and whether a
default is present (hasDefault is false exactly when
param.default == param.empty, toolbox.py line 320). -/
structure PyParam where
  pname : String
  annName : String
  hasDefault : Bool

/-- one entry of numpydoc's Parameters section for the docstring: name,
type string and description lines (numpydoc's Parameter namedtuple
always carries a type attribute, so the hasattr test of toolbox.py line
292 is always true; an undocumented type is the empty string). -/
structure DocParam where
  dname : String
  dtype : String
  desc : List String

/-- introspection data of a Python callable as function_to_dict consumes
it: __name__, the docstring summary lines, the docstring Parameters
section and the signature parameters in declaration order. -/
structure PyFunction where
  fname : String
  summary : List String
  docParams : List DocParam
  sigParams : List PyParam

/-- json_schema_type (toolbox.py lines 220-243): map a Python type name
to a JSON schema type, "string" when not recognized. -/
def json_schema_type (python_type_name : String) : String :=
  if python_type_name == "str" then "string"
  else if python_type_name == "int" then "integer"
  else if python_type_name == "float" then "number"
  else if python_type_name == "bool" then "boolean"
  else if python_type_name == "list" then "array"
  else if python_type_name == "dict" then "object"
  else if python_type_name == "NoneType" then "null"
  else "string"

/-- occurrence of pat as a contiguous character run of s. -/
def charsHasSubstr (pat : List Char) : List Char → Bool
  | [] => pat.isEmpty
  | c :: rest => pat.isPrefixOf (c :: rest) || charsHasSubstr pat rest

/-- Python's substring test (the in operator on str). -/
def hasSubstr (s pat : String) : Bool :=
  charsHasSubstr pat.toList s.toList

/-- characters before the first comma. -/
def beforeComma : List Char → List Char
  | [] => []
  | c :: rest => if c == ',' then [] else c :: beforeComma rest

/-- Python's split(",")[0]: everything before the first comma, the whole
string when no comma occurs. -/
def beforeFirstComma (s : String) : String :=
  String.mk (beforeComma s.toList)

/-- Python's str.strip(): drop leading and trailing whitespace. -/
def pyStrip (s : String) : String :=
  String.mk
    (((s.toList.dropWhile Char.isWhitespace).reverse.dropWhile
        Char.isWhitespace).reverse)

/-- running values of param_type, param_description and param_enum while
the docstring Parameters section is scanned (toolbox.py lines 281-307). -/
structure DocScanState where
  ptype : PyVal
  pdesc : PyVal
  penum : PyVal

/-- one iteration of the docstring scan (toolbox.py lines 290-307): on a
name match the documented type string replaces the annotation type; if
it contains "optional" everything from the first comma is stripped; else
if it contains a brace it is passed to ast.literal_eval — on success the
element list becomes param_enum and the type becomes "string", on
failure both are left as they were; json_schema_type is then applied to
whatever type string remains, and param_description is joined from the
stripped description lines.  The loop has no break, so a later matching
entry overwrites an earlier one. -/
def docStep (lev : String → Option (List PyVal)) (pn : String)
    (st : DocScanState) (pd : DocParam) : DocScanState :=
  if pd.dname == pn then
    let t0 := pd.dtype
    let te : String × PyVal :=
      if hasSubstr t0 "optional" then (beforeFirstComma t0, st.penum)
      else if hasSubstr t0 "\x7b" then
        match lev t0 with
        | some xs => ("string", PyVal.vlist xs)
        | none => (t0, st.penum)
      else (t0, st.penum)
    { ptype := PyVal.vstr (json_schema_type te.1),
      pdesc := PyVal.vstr (String.intercalate "\n" (pd.desc.map pyStrip)),
      penum := te.2 }
  else st

/-- filtered parameters entry for one signature parameter (toolbox.py
lines 281-317): scan the docstring entries starting from the annotation
type, build param_dict = [type, description, enum] and keep only the
slots whose value is a str — dict((k, v) for ... if isinstance(v, str)).
The lev argument models list(literal_eval(-)): some elems when the type
string parses as a literal collection, none when literal_eval raises. -/
def paramEntry (lev : String → Option (List PyVal)) (doc : List DocParam)
    (p : PyParam) : List (String × PyVal) :=
  let st0 : DocScanState :=
    { ptype := PyVal.vstr (json_schema_type p.annName),
      pdesc := PyVal.vnone, penum := PyVal.vnone }
  let st := doc.foldl (docStep lev p.pname) st0
  ([("type", st.ptype), ("description", st.pdesc), ("enum", st.penum)]).filter
    fun kv => kv.2.isStr

/-- required_params accumulation of function_to_dict (toolbox.py lines
319-321): the names of the parameters without a default, collected in
signature order. -/
def requiredOf : List PyParam → List String
  | [] => []
  | p :: rest => if p.hasDefault then requiredOf rest else p.pname :: requiredOf rest

/-- the descriptor function_to_dict returns (toolbox.py lines 323-340);
the constant "type": "function" wrapper is omitted, the fields below are
result["function"]: name, description, parameters.properties and the
parameters.required key, which is added only when required_params is
non-empty. -/
structure FunctionDict where
  fname : String
  description : String
  properties : List (String × List (String × PyVal))
  required : Option (List String)

/-- function_to_dict (toolbox.py lines 246-340, the src/smoltalk package
version, whose enum is list(literal_eval(...))). -/
def function_to_dict (lev : String → Option (List PyVal)) (f : PyFunction) :
    FunctionDict :=
  { fname := f.fname,
    description := String.intercalate "\n" (f.summary.map pyStrip),
    properties := f.sigParams.map fun p => (p.pname, paramEntry lev f.docParams p),
    required :=
      if requiredOf f.sigParams = [] then none else some (requiredOf f.sigParams) }

/-- assoc-list lookup modelling Python dict access (keys are unique). -/
def lookupKey {α : Type} (l : List (String × α)) (k : String) : Option α :=
  (l.find? fun kv => kv.1 == k).map fun kv => kv.2

/-- model of list(literal_eval(-)) for the concrete example below: the
one brace-delimited set literal in use parses to its two string
elements, everything else fails. -/
def lev0 : String → Option (List PyVal) :=
  fun s =>
    if s == "\x7b\"celsius\", \"fahrenheit\"\x7d" then
      some [PyVal.vstr "celsius", PyVal.vstr "fahrenheit"]
    else none

/-- a concrete callable for the descriptor claims: get_current_weather
with a required annotated parameter and a defaulted parameter documented
with a brace-delimited set of allowed values. -/
def weatherFn : PyFunction :=
  { fname := "get_current_weather",
    summary := ["Get the current weather."],
    docParams := [{ dname := "unit", dtype := "\x7b\"celsius\", \"fahrenheit\"\x7d",
                    desc := ["Temperature unit."] }],
    sigParams := [{ pname := "location", annName := "str", hasDefault := false },
                  { pname := "unit", annName := "str", hasDefault := true }] }

/-- Python truthiness of a Json value, as bool(x) computes it. -/
def pyTruthy : Json → Bool
  | Json.null => false
  | Json.bool b => b
  | Json.num n => !(n == 0)
  | Json.str s => !(s == "")
  | Json.arr xs => !xs.isEmpty
  | Json.obj fs => !fs.isEmpty

/-- response.get("error") on a dict (keys of a Python dict are unique,
so the first binding wins). -/
def objGet (fields : List (String × Json)) (k : String) : Option Json :=
  (fields.find? fun kv => kv.1 == k).map fun kv => kv.2

/-- the short-circuit test of get_response (toolbox.py lines 150-151):
type(response) is dict and response.get("error") is truthy. -/
def isErrorPayload : Json → Bool
  | Json.obj fs =>
    match objGet fs "error" with
    | some v => pyTruthy v
    | none => false
  | _ => false

/-- the error payload built in the except branch (toolbox.py line 160):
a dict with key "error" and the formatted exception message. -/
def errorPayload (e : String) : Json :=
  Json.obj [("error", Json.str ("Tool call failed with exception: " ++ e))]

mutual
/-- json.dumps, up to whitespace and string escaping: the engine only
ever compares serialized payloads produced by this same function. -/
def dumps : Json → String
  | Json.null => "null"
  | Json.bool b => if b then "true" else "false"
  | Json.num n => toString n
  | Json.str s => "\"" ++ s ++ "\""
  | Json.arr xs => "[" ++ dumpsElems xs ++ "]"
  | Json.obj fs => "\x7b" ++ dumpsFields fs ++ "\x7d"
def dumpsElems : List Json → String
  | [] => ""
  | [x] => dumps x
  | x :: xs => dumps x ++ ", " ++ dumpsElems xs
def dumpsFields : List (String × Json) → String
  | [] => ""
  | [kv] => "\"" ++ kv.1 ++ "\": " ++ dumps kv.2
  | kv :: fs => "\"" ++ kv.1 ++ "\": " ++ dumps kv.2 ++ ", " ++ dumpsFields fs
end

/-- the tool message appended after an invocation (toolbox.py lines
165-172): role "tool", content json.dumps(response), tool_call_id and
name taken from the request. -/
def toolMsg (tc : ToolCallReq) (v : Json) : ChatMessage :=
  { role := "tool", content := some (dumps v),
    tool_call_id := some tc.id, name := some tc.fname }

/-- outcome of one dispatch through _call_tool (toolbox.py lines
178-201): either the value the callable returned, or the str(e) of an
exception raised anywhere inside the try block of get_response —
json.loads of the argument text, the getattr lookup, or the callable
itself all raise into the same except clause (toolbox.py lines
147-160). -/
inductive ToolRes where
  | ok (v : Json)
  | exn (e : String)

/-- the assistant message of a well-formed 2xx remote completion
response: role, content and tool_calls of
response["choices"][0]["message"], and raw the whole parsed body, which
get_response returns at a terminal step.  Upstream HTTP failures
(raise_for_status) are outside the claims below and are not modelled. -/
structure RemoteReply where
  role : String
  content : Option String
  tool_calls : Option (List ToolCallReq)
  raw : Json

/-- environment of one get_response call chain: the remote model's reply
as a function of how many completion calls were made before, and the
tool dispatch outcome for each requested call. -/
structure Env where
  reply : Nat → RemoteReply
  tool : ToolCallReq → ToolRes

/-- constructor state of a Toolbox (toolbox.py lines 28-49) as
get_response consumes it; tool_signatures is the catalog built once by
_generate_tool_signatures from function_to_dict, kept abstract here. -/
structure ToolboxCfg where
  model : String
  system_prompt : Option String
  fail_on_tool_error : Bool
  tool_signatures : List Json

/-- the request body get_response posts (toolbox.py lines 102-109). -/
structure RequestBody where
  model : String
  messages : List ChatMessage
  n : Nat
  tools : Option (List Json)
  tool_choice : Option String

/-- request construction (toolbox.py lines 102-109): tools and
tool_choice = "auto" are attached exactly when the last message's role
is not "tool". -/
def buildRequest (tb : ToolboxCfg) (msgs : List ChatMessage) (lastRole : String) :
    RequestBody :=
  if lastRole == "tool" then
    { model := tb.model, messages := msgs, n := 1, tools := none, tool_choice := none }
  else
    { model := tb.model, messages := msgs, n := 1,
      tools := some tb.tool_signatures, tool_choice := some "auto" }

/-- the assistant message appended after a remote reply (toolbox.py
lines 134-140): ChatMessage(role=..., content=..., tool_calls=...). -/
def assistantOf (r : RemoteReply) : ChatMessage :=
  { role := r.role, content := r.content, tool_calls := r.tool_calls }

/-- result of the per-turn tool loop: either the early return of an
error payload (messages as they were at that point), or fall-through
with the extended conversation. -/
inductive LoopOut where
  | shortCircuit (payload : Json) (msgs : List ChatMessage)
  | completed (msgs : List ChatMessage)

/-- the tool loop of get_response (toolbox.py lines 145-172), one
iteration per requested call, in request order.  A successful dispatch
whose value is an error payload returns it at once when
fail_on_tool_error holds — before the tool message is appended; an
exception becomes errorPayload e, returned at once when
fail_on_tool_error holds, appended as a tool message otherwise. -/
def toolLoop (env : Env) (fote : Bool) :
    List ChatMessage → List ToolCallReq → LoopOut
  | msgs, [] => LoopOut.completed msgs
  | msgs, tc :: rest =>
    match env.tool tc with
    | ToolRes.ok v =>
      if fote && isErrorPayload v then LoopOut.shortCircuit v msgs
      else toolLoop env fote (msgs ++ [toolMsg tc v]) rest
    | ToolRes.exn e =>
      let payload := errorPayload e
      if fote then LoopOut.shortCircuit payload msgs
      else toolLoop env fote (msgs ++ [toolMsg tc payload]) rest

/-- result of a get_response call: the returned Python value, the final
state of the messages list and the trace of posted request bodies — or
the IndexError of messages[-1] on an empty list (toolbox.py line 107),
which no handler catches, or fuel exhaustion (the Python recursion has
no depth bound; every theorem below holds for all sufficient fuel). -/
inductive GRResult where
  | ok (result : Json) (msgs : List ChatMessage) (requests : List RequestBody)
  | indexError (requests : List RequestBody)
  | outOfFuel (requests : List RequestBody)

/-- the request-body traces of a result. -/
def grRequests : GRResult → List RequestBody
  | GRResult.ok _ _ reqs => reqs
  | GRResult.indexError reqs => reqs
  | GRResult.outOfFuel reqs => reqs

/-- prepend this level's request to the trace of a nested result. -/
def consReq (req : RequestBody) : GRResult → GRResult
  | GRResult.ok r m reqs => GRResult.ok r m (req :: reqs)
  | GRResult.indexError reqs => GRResult.indexError (req :: reqs)
  | GRResult.outOfFuel reqs => GRResult.outOfFuel (req :: reqs)

/-- Toolbox.get_response (toolbox.py lines 83-176).  Step by step:
resolve the per-call fail_on_tool_error override against the
constructor's value (lines 86-87); normalize the system prompt (lines
89-98); build the request from messages[-1].role (lines 102-109, an
IndexError when the normalized list is empty); obtain the reply and
append the assistant message (lines 134-140); if auto_tool_call and the
reply's tool_calls is neither None nor empty (line 143), run the tool
loop and — unless it short-circuits — recurse on the extended
conversation with default arguments, i.e. auto_tool_call=True and
fail_on_tool_error=None (line 174); otherwise return the parsed response
body. -/
def getResponse (tb : ToolboxCfg) (env : Env) :
    Nat → Nat → List ChatMessage → Bool → Option Bool → GRResult
  | 0, _, _, _, _ => GRResult.outOfFuel []
  | fuel + 1, callIdx, messages0, auto, fo =>
    let fote := fo.getD tb.fail_on_tool_error
    let msgs1 := normalizeConv tb.system_prompt messages0
    match msgs1.getLast? with
    | none => GRResult.indexError []
    | some last =>
      let req := buildRequest tb msgs1 last.role
      let reply := env.reply callIdx
      let msgs2 := msgs1 ++ [assistantOf reply]
      let tcs := reply.tool_calls.getD []
      if auto && reply.tool_calls.isSome && !tcs.isEmpty then
        match toolLoop env fote msgs2 tcs with
        | LoopOut.shortCircuit payload m2 => GRResult.ok payload m2 [req]
        | LoopOut.completed m2 =>
          consReq req (getResponse tb env fuel (callIdx + 1) m2 true none)
      else
        GRResult.ok reply.raw msgs2 [req]

/-- the message the loop body appends for one requested call: the
returned value on success, the wrapped error payload on an exception. -/
def toolResultMsg (env : Env) (tc : ToolCallReq) : ChatMessage :=
  match env.tool tc with
  | ToolRes.ok v => toolMsg tc v
  | ToolRes.exn e => toolMsg tc (errorPayload e)

/-- a Toolbox configuration used as a concrete instance below. -/
def tb0 : ToolboxCfg :=
  { model := "m", system_prompt := none, fail_on_tool_error := false,
    tool_signatures := [Json.str "sig"] }

/-- a remote reply with no tool calls. -/
def replyPlain : RemoteReply :=
  { role := "assistant", content := some "hello", tool_calls := none,
    raw := Json.str "final" }

/-- a concrete tool-call request. -/
def tc0 : ToolCallReq := { id := "call_1", fname := "lookup", arguments := "\x7b\x7d" }

/-- a remote reply requesting one tool call. -/
def replyTool : RemoteReply :=
  { role := "assistant", content := none, tool_calls := some [tc0],
    raw := Json.str "mid" }

/-- environment whose model never requests tools. -/
def env0 : Env := { reply := fun _ => replyPlain, tool := fun _ => ToolRes.ok Json.null }

/-- environment whose model requests one tool call first and whose tool
raises. -/
def envBoom : Env :=
  { reply := fun i => if i == 0 then replyTool else replyPlain,
    tool := fun _ => ToolRes.exn "boom" }

/-- environment whose model requests one tool call first and whose tool
succeeds. -/
def envOkTool : Env :=
  { reply := fun i => if i == 0 then replyTool else replyPlain,
    tool := fun _ => ToolRes.ok (Json.str "42") }

theorem countSysDev_cons (m : ChatMessage) (rest : List ChatMessage) :
    countSysDev (m :: rest) =
      if isSysDev m then countSysDev rest + 1 else countSysDev rest := by
  by_cases h : isSysDev m <;> simp [countSysDev, List.filter_cons, h]

theorem countSysDev_popFirst_eq_zero (msgs : List ChatMessage)
    (h : countSysDev msgs ≤ 1) : countSysDev (popFirstSysDev msgs) = 0 := by
  induction msgs with
  | nil => rfl
  | cons m rest ih =>
    rw [countSysDev_cons m rest] at h
    by_cases hm : isSysDev m
    · rw [if_pos hm] at h
      have h0 : countSysDev rest = 0 := by omega
      simpa [popFirstSysDev, hm] using h0
    · rw [if_neg hm] at h
      simpa [popFirstSysDev, hm, countSysDev_cons] using ih h

theorem popFirst_of_count_zero (msgs : List ChatMessage)
    (h : countSysDev msgs = 0) : popFirstSysDev msgs = msgs := by
  induction msgs with
  | nil => rfl
  | cons m rest ih =>
    rw [countSysDev_cons m rest] at h
    by_cases hm : isSysDev m
    · rw [if_pos hm] at h; omega
    · rw [if_neg hm] at h
      simp [popFirstSysDev, hm, ih h]

theorem leadingSysDev_le_count (msgs : List ChatMessage) :
    leadingSysDev msgs ≤ countSysDev msgs := by
  induction msgs with
  | nil => simp [leadingSysDev, countSysDev]
  | cons m rest ih =>
    rw [countSysDev_cons m rest]
    by_cases hm : isSysDev m
    · simp only [leadingSysDev, if_pos hm]
      omega
    · simp [leadingSysDev, hm]

/-- C1: the fan-out coordinator does not give its branches independent
copies of the conversation.  create_chat_completion (openairouter.py
line 18) passes the same chatRequest.messages list to every branch, and
get_response mutates that list in place, so with a configured system
prompt "S" and input [userHi] the second branch starts from
[system "S", userHi] — it observes the system prompt inserted by the
first branch — instead of from a copy of the input. -/
theorem c1_fanout_shares_conversation :
    branchInput (some "S") [userHi] 1 = [sysMsgOf "S", userHi]
    ∧ branchInput (some "S") [userHi] 1 ≠ [userHi] :=
  ⟨rfl, by decide⟩

/-- C2 counterexample: on a conversation that begins with two system
messages and with a configured system prompt, applying the normalization
step of get_response twice leaves two leading system messages — the step
removes only the first system/developer message before inserting the
prompt, so the claim as stated (for every conversation) is false. -/
theorem c2_counterexample :
    ¬ leadingSysDev (normalizeConv (some "S") (normalizeConv (some "S")
        [sysMsgOf "A", sysMsgOf "B", userHi])) ≤ 1 := by decide

/-- C2 (amended): for every conversation containing at most one
system/developer message — the data-model invariant — the normalization
step of get_response is idempotent, applying it twice yields at most one
leading system message, and its output again contains at most one
system/developer message, so repeated get_response calls never
accumulate duplicate system messages. -/
theorem c2_normalize_idempotent (sp : Option String) (msgs : List ChatMessage)
    (h : countSysDev msgs ≤ 1) :
    normalizeConv sp (normalizeConv sp msgs) = normalizeConv sp msgs
    ∧ leadingSysDev (normalizeConv sp (normalizeConv sp msgs)) ≤ 1
    ∧ countSysDev (normalizeConv sp msgs) ≤ 1 := by
  have hzero := countSysDev_popFirst_eq_zero msgs h
  have hlead : leadingSysDev (popFirstSysDev msgs) = 0 := by
    have := leadingSysDev_le_count (popFirstSysDev msgs); omega
  match sp with
  | none =>
    simp only [normalizeConv]
    rw [popFirst_of_count_zero _ hzero]
    exact ⟨rfl, by omega, by omega⟩
  | some s =>
    by_cases hs : s == ""
    · simp only [normalizeConv, if_pos hs]
      rw [popFirst_of_count_zero _ hzero]
      exact ⟨rfl, by omega, by omega⟩
    · simp only [normalizeConv, if_neg hs]
      have hpop : popFirstSysDev (sysMsgOf s :: popFirstSysDev msgs)
          = popFirstSysDev msgs := by
        simp [popFirstSysDev, isSysDev, sysMsgOf]
      rw [hpop]
      refine ⟨rfl, ?_, ?_⟩
      · simp only [leadingSysDev, isSysDev, sysMsgOf]
        simp [hlead]
      · rw [countSysDev_cons]
        simp [isSysDev, sysMsgOf, hzero]

/-- C2 witness: the amended theorem applied at system prompt "S" and the
one-message conversation [userHi]. -/
theorem c2_normalize_idempotent_witness :
    countSysDev [userHi] ≤ 1
    ∧ (normalizeConv (some "S") (normalizeConv (some "S") [userHi])
          = normalizeConv (some "S") [userHi]
       ∧ leadingSysDev (normalizeConv (some "S")
          (normalizeConv (some "S") [userHi])) ≤ 1
       ∧ countSysDev (normalizeConv (some "S") [userHi]) ≤ 1) :=
  ⟨by decide, c2_normalize_idempotent (some "S") [userHi] (by decide)⟩

/-- C3 (failing input): for a callable whose docstring documents
parameter "unit" with the brace-delimited value set, literal_eval
succeeds — lev0 parses the set into its two values — and the scan sets
param_type to "string" and param_enum to the parsed list; yet the
descriptor's entry for "unit" holds only type and description and no
"enum" key, because the filter dict((k, v) ... if isinstance(v, str))
of toolbox.py line 316 drops the list-valued enum that line 302
deliberately produced ("Vertex AI complained when this was a string").
The claim's enum key is therefore never emitted by this code. -/
theorem c3_enum_key_dropped :
    lev0 "\x7b\"celsius\", \"fahrenheit\"\x7d"
      = some [PyVal.vstr "celsius", PyVal.vstr "fahrenheit"]
    ∧ lookupKey (function_to_dict lev0 weatherFn).properties "unit"
      = some [("type", PyVal.vstr "string"),
              ("description", PyVal.vstr "Temperature unit.")] :=
  ⟨rfl, rfl⟩

theorem requiredOf_eq_filter_map (ps : List PyParam) :
    requiredOf ps = (ps.filter fun p => !p.hasDefault).map PyParam.pname := by
  induction ps with
  | nil => rfl
  | cons p rest ih =>
    by_cases h : p.hasDefault <;> simp [requiredOf, h, ih]

/-- C8: for every callable, the required list of the descriptor produced
by function_to_dict holds exactly the names of the parameters lacking a
default value, in declaration order (the key itself is added only when
that list is non-empty, toolbox.py lines 337-338). -/
theorem c8_required_exactly_no_default (lev : String → Option (List PyVal))
    (f : PyFunction) :
    (function_to_dict lev f).required =
      if ((f.sigParams.filter fun p => !p.hasDefault).map PyParam.pname) = []
      then none
      else some ((f.sigParams.filter fun p => !p.hasDefault).map PyParam.pname) := by
  simp only [function_to_dict, requiredOf_eq_filter_map]

theorem grRequests_consReq (req : RequestBody) (r : GRResult) :
    grRequests (consReq req r) = req :: grRequests r := by
  cases r <;> rfl

/-- C5: with fail_on_tool_error disabled the tool loop never
short-circuits and never lets an exception escape: every requested
invocation contributes exactly one appended tool message — the returned
value when the dispatch succeeds, the structured errorPayload wrapping
str(e) when the callable (or the argument parse or the name lookup)
raises — and the loop always falls through to the recursive call, so a
raw exception is never propagated out of get_response through the tool
path. -/
theorem c5_tool_errors_wrapped (env : Env) (tcs : List ToolCallReq)
    (msgs : List ChatMessage) :
    toolLoop env false msgs tcs
      = LoopOut.completed (msgs ++ tcs.map (toolResultMsg env)) := by
  induction tcs generalizing msgs with
  | nil => simp [toolLoop]
  | cons tc rest ih =>
    cases h : env.tool tc with
    | ok v => simp [toolLoop, h, ih, toolResultMsg]
    | exn e => simp [toolLoop, h, ih, toolResultMsg]

theorem toolLoop_shortCircuit_suffix (env : Env) (fote : Bool) :
    ∀ (tcs : List ToolCallReq) (msgs m2 : List ChatMessage) (p : Json),
      toolLoop env fote msgs tcs = LoopOut.shortCircuit p m2 →
      ∃ suffix, m2 = msgs ++ suffix ∧ ∀ x ∈ suffix, x.role = "tool" := by
  intro tcs
  induction tcs with
  | nil =>
    intro msgs m2 p h
    simp [toolLoop] at h
  | cons tc rest ih =>
    intro msgs m2 p h
    cases he : env.tool tc with
    | ok v =>
      simp only [toolLoop, he] at h
      by_cases hc : fote && isErrorPayload v
      · rw [if_pos hc] at h
        injection h with h1 h2
        subst h2
        exact ⟨[], by simp, by simp⟩
      · rw [if_neg hc] at h
        obtain ⟨s, hs, hall⟩ := ih _ _ _ h
        refine ⟨toolMsg tc v :: s, ?_, ?_⟩
        · simpa [List.append_assoc] using hs
        · intro x hx
          rcases List.mem_cons.mp hx with hx | hx
          · subst hx; rfl
          · exact hall x hx
    | exn e =>
      simp only [toolLoop, he] at h
      by_cases hc : fote
      · rw [if_pos hc] at h
        injection h with h1 h2
        subst h2
        exact ⟨[], by simp, by simp⟩
      · rw [if_neg hc] at h
        obtain ⟨s, hs, hall⟩ := ih _ _ _ h
        refine ⟨toolMsg tc (errorPayload e) :: s, ?_, ?_⟩
        · simpa [List.append_assoc] using hs
        · intro x hx
          rcases List.mem_cons.mp hx with hx | hx
          · subst hx; rfl
          · exact hall x hx

/-- C4: with fail_on_tool_error resolved to true, a requested tool
invocation whose outcome is an error payload — a dispatch returning an
error dict, or a raising tool whose exception is wrapped — makes
get_response return that payload at once: the request trace holds the
single request of this level, so no recursion and no further remote
call happened, and the final conversation extends this turn's assistant
message only by the tool messages of the earlier successful calls — no
further assistant turn is appended. -/
theorem c4_fail_fast (tb : ToolboxCfg) (env : Env) (fuel callIdx : Nat)
    (msgs : List ChatMessage) (fo : Option Bool) (last : ChatMessage)
    (tcs : List ToolCallReq) (payload : Json) (m2 : List ChatMessage)
    (hfote : fo.getD tb.fail_on_tool_error = true)
    (hL : (normalizeConv tb.system_prompt msgs).getLast? = some last)
    (hT : (env.reply callIdx).tool_calls = some tcs)
    (hne : tcs ≠ [])
    (hloop : toolLoop env true
        (normalizeConv tb.system_prompt msgs ++ [assistantOf (env.reply callIdx)])
        tcs = LoopOut.shortCircuit payload m2) :
    getResponse tb env (fuel + 1) callIdx msgs true fo
      = GRResult.ok payload m2
          [buildRequest tb (normalizeConv tb.system_prompt msgs) last.role]
    ∧ ∃ suffix,
        m2 = (normalizeConv tb.system_prompt msgs
            ++ [assistantOf (env.reply callIdx)]) ++ suffix
        ∧ ∀ x ∈ suffix, x.role = "tool" := by
  have hemp : tcs.isEmpty = false := by
    cases tcs with
    | nil => exact absurd rfl hne
    | cons a l => rfl
  constructor
  · simp [getResponse, hL, hT, hfote, hemp, hloop]
  · exact toolLoop_shortCircuit_suffix env true tcs _ m2 payload hloop

/-- C7: when the remote reply carries no tool calls — the tool_calls
field absent (None) or present as an empty list, the loop guard of
toolbox.py line 143 treating both alike — get_response appends that
assistant message, returns the parsed response body, and its request
trace holds only this level's request: no recursive call and no tool
invocation happen. -/
theorem c7_no_tool_calls_terminal (tb : ToolboxCfg) (env : Env)
    (fuel callIdx : Nat) (msgs : List ChatMessage) (auto : Bool)
    (fo : Option Bool) (last : ChatMessage)
    (hL : (normalizeConv tb.system_prompt msgs).getLast? = some last)
    (hT : (env.reply callIdx).tool_calls = none
        ∨ (env.reply callIdx).tool_calls = some []) :
    getResponse tb env (fuel + 1) callIdx msgs auto fo
      = GRResult.ok (env.reply callIdx).raw
          (normalizeConv tb.system_prompt msgs ++ [assistantOf (env.reply callIdx)])
          [buildRequest tb (normalizeConv tb.system_prompt msgs) last.role] := by
  rcases hT with hT | hT
  · simp [getResponse, hL, hT]
  · simp [getResponse, hL, hT]

/-- C9: on an empty conversation with no truthy system prompt the
normalized list is empty, so messages[-1] raises IndexError before any
request is posted — the request trace is empty for every fuel, so a
non-empty conversation or a configured system prompt is a necessary
precondition for reaching the remote completion call. -/
theorem c9_empty_conversation (tb : ToolboxCfg) (env : Env) (fuel callIdx : Nat)
    (auto : Bool) (fo : Option Bool)
    (hsp : spTruthy tb.system_prompt = false) :
    getResponse tb env (fuel + 1) callIdx [] auto fo = GRResult.indexError []
    ∧ grRequests (getResponse tb env fuel callIdx [] auto fo) = [] := by
  have hnorm : normalizeConv tb.system_prompt [] = [] := by
    cases h : tb.system_prompt with
    | none => rfl
    | some s =>
      simp [spTruthy, h] at hsp
      simp [normalizeConv, hsp, popFirstSysDev]
  constructor
  · simp [getResponse, hnorm]
  · cases fuel with
    | zero => rfl
    | succ n => simp [getResponse, hnorm, grRequests]

theorem getResponse_override_default (tb : ToolboxCfg) (env : Env)
    (fuel callIdx : Nat) (msgs : List ChatMessage) (auto : Bool) :
    getResponse tb env fuel callIdx msgs auto none
      = getResponse tb env fuel callIdx msgs auto (some tb.fail_on_tool_error) := by
  cases fuel with
  | zero => rfl
  | succ n => rfl

/-- C10: the per-call fail_on_tool_error override is not propagated into
the recursion: when the tool loop of one level falls through, the result
is this level's request followed by a recursive call whose override
argument is the constructor's fail_on_tool_error value — whatever
override fo the top-level caller passed (toolbox.py line 174 recurses
with default arguments, and line 86-87 then resolves None to
self.fail_on_tool_error). -/
theorem c10_override_not_recursed (tb : ToolboxCfg) (env : Env)
    (fuel callIdx : Nat) (msgs : List ChatMessage) (fo : Option Bool)
    (last : ChatMessage) (tcs : List ToolCallReq) (m2 : List ChatMessage)
    (hL : (normalizeConv tb.system_prompt msgs).getLast? = some last)
    (hT : (env.reply callIdx).tool_calls = some tcs)
    (hne : tcs ≠ [])
    (hloop : toolLoop env (fo.getD tb.fail_on_tool_error)
        (normalizeConv tb.system_prompt msgs ++ [assistantOf (env.reply callIdx)])
        tcs = LoopOut.completed m2) :
    getResponse tb env (fuel + 1) callIdx msgs true fo
      = consReq (buildRequest tb (normalizeConv tb.system_prompt msgs) last.role)
          (getResponse tb env fuel (callIdx + 1) m2 true
            (some tb.fail_on_tool_error)) := by
  have hemp : tcs.isEmpty = false := by
    cases tcs with
    | nil => exact absurd rfl hne
    | cons a l => rfl
  rw [← getResponse_override_default]
  simp [getResponse, hL, hT, hemp, hloop]

/-- C6: every request body get_response ever posts — at any recursion
depth — attaches the tool-descriptor catalog and tool_choice = "auto"
exactly when the last message of the serialized (normalized)
conversation does not have role "tool". -/
theorem c6_tools_iff_last_not_tool (tb : ToolboxCfg) (env : Env) (fuel : Nat) :
    ∀ (callIdx : Nat) (msgs : List ChatMessage) (auto : Bool) (fo : Option Bool)
      (req : RequestBody),
      req ∈ grRequests (getResponse tb env fuel callIdx msgs auto fo) →
      ((req.tools = some tb.tool_signatures ∧ req.tool_choice = some "auto") ↔
        ¬ req.messages.getLast?.map ChatMessage.role = some "tool") := by
  induction fuel with
  | zero =>
    intro callIdx msgs auto fo req hmem
    simp [getResponse, grRequests] at hmem
  | succ n ih =>
    intro callIdx msgs auto fo req hmem
    cases hL : (normalizeConv tb.system_prompt msgs).getLast? with
    | none => simp [getResponse, hL, grRequests] at hmem
    | some last =>
      have hreq :
          ((buildRequest tb (normalizeConv tb.system_prompt msgs) last.role).tools
              = some tb.tool_signatures
            ∧ (buildRequest tb (normalizeConv tb.system_prompt msgs)
                last.role).tool_choice = some "auto") ↔
          ¬ (buildRequest tb (normalizeConv tb.system_prompt msgs)
              last.role).messages.getLast?.map ChatMessage.role = some "tool" := by
        by_cases hrole : last.role == "tool"
        · simp only [beq_iff_eq] at hrole
          simp [buildRequest, hrole, hL]
        · simp only [beq_iff_eq] at hrole
          simp [buildRequest, hrole, hL]
      by_cases hcond : auto && (env.reply callIdx).tool_calls.isSome
          && !((env.reply callIdx).tool_calls.getD []).isEmpty
      · cases hloop : toolLoop env (fo.getD tb.fail_on_tool_error)
            (normalizeConv tb.system_prompt msgs ++ [assistantOf (env.reply callIdx)])
            ((env.reply callIdx).tool_calls.getD []) with
        | shortCircuit p m2 =>
          simp only [getResponse, hL, hcond, hloop, if_true, grRequests,
            List.mem_singleton] at hmem
          subst hmem
          exact hreq
        | completed m2 =>
          simp only [getResponse, hL, hcond, hloop, if_true,
            grRequests_consReq, List.mem_cons] at hmem
          rcases hmem with hmem | hmem
          · subst hmem
            exact hreq
          · exact ih (callIdx + 1) m2 true none req hmem
      · simp only [Bool.not_eq_true] at hcond
        simp only [getResponse, hL, hcond, Bool.false_eq_true, if_false,
          grRequests, List.mem_singleton] at hmem
        subst hmem
        exact hreq

/-- C4 witness: the fail-fast theorem applied to a toolbox with a
top-level override fail_on_tool_error=True and a single requested tool
call whose callable raises "boom". -/
theorem c4_fail_fast_witness :
    (some true : Option Bool).getD tb0.fail_on_tool_error = true
    ∧ (getResponse tb0 envBoom 2 0 [userHi] true (some true)
        = GRResult.ok (errorPayload "boom")
            ([userHi] ++ [assistantOf (envBoom.reply 0)])
            [buildRequest tb0 (normalizeConv tb0.system_prompt [userHi]) userHi.role]
      ∧ ∃ suffix,
          ([userHi] ++ [assistantOf (envBoom.reply 0)])
            = (normalizeConv tb0.system_prompt [userHi]
                ++ [assistantOf (envBoom.reply 0)]) ++ suffix
          ∧ ∀ x ∈ suffix, x.role = "tool") :=
  ⟨rfl, c4_fail_fast tb0 envBoom 1 0 [userHi] (some true) userHi [tc0]
      (errorPayload "boom") ([userHi] ++ [assistantOf (envBoom.reply 0)])
      rfl rfl rfl (List.cons_ne_nil tc0 []) rfl⟩

/-- C7 witness: the terminal theorem applied to a reply whose tool_calls
field is None. -/
theorem c7_no_tool_calls_terminal_witness :
    (normalizeConv tb0.system_prompt [userHi]).getLast? = some userHi
    ∧ ((env0.reply 0).tool_calls = none ∨ (env0.reply 0).tool_calls = some [])
    ∧ getResponse tb0 env0 1 0 [userHi] true none
        = GRResult.ok (env0.reply 0).raw
            (normalizeConv tb0.system_prompt [userHi] ++ [assistantOf (env0.reply 0)])
            [buildRequest tb0 (normalizeConv tb0.system_prompt [userHi]) userHi.role] :=
  ⟨rfl, Or.inl rfl,
    c7_no_tool_calls_terminal tb0 env0 0 0 [userHi] true none userHi rfl (Or.inl rfl)⟩

/-- C9 witness: the empty-conversation theorem applied to a toolbox with
no system prompt. -/
theorem c9_empty_conversation_witness :
    spTruthy tb0.system_prompt = false
    ∧ getResponse tb0 env0 2 0 [] true none = GRResult.indexError []
    ∧ grRequests (getResponse tb0 env0 1 0 [] true none) = [] :=
  ⟨rfl, (c9_empty_conversation tb0 env0 1 0 true none rfl).1,
    (c9_empty_conversation tb0 env0 1 0 true none rfl).2⟩

/-- C6 witness: the request-construction theorem applied to the one
request a plain exchange posts; its last message is the user turn, so
tools and tool_choice are attached. -/
theorem c6_tools_iff_last_not_tool_witness :
    (buildRequest tb0 (normalizeConv tb0.system_prompt [userHi]) userHi.role
        ∈ grRequests (getResponse tb0 env0 1 0 [userHi] true none))
    ∧ (((buildRequest tb0 (normalizeConv tb0.system_prompt [userHi])
            userHi.role).tools = some tb0.tool_signatures
        ∧ (buildRequest tb0 (normalizeConv tb0.system_prompt [userHi])
            userHi.role).tool_choice = some "auto") ↔
        ¬ (buildRequest tb0 (normalizeConv tb0.system_prompt [userHi])
            userHi.role).messages.getLast?.map ChatMessage.role = some "tool") := by
  have hmem : buildRequest tb0 (normalizeConv tb0.system_prompt [userHi]) userHi.role
      ∈ grRequests (getResponse tb0 env0 1 0 [userHi] true none) := by
    have h : grRequests (getResponse tb0 env0 1 0 [userHi] true none)
        = [buildRequest tb0 (normalizeConv tb0.system_prompt [userHi]) userHi.role] :=
      rfl
    rw [h]
    exact List.mem_singleton.mpr rfl
  exact ⟨hmem, c6_tools_iff_last_not_tool tb0 env0 1 0 [userHi] true none _ hmem⟩

/-- C10 witness: the toolbox was constructed with
fail_on_tool_error=False; the top level is called with override True,
its single tool call succeeds, and the recursion proceeds with the
constructor's False, not the caller's True. -/
theorem c10_override_not_recursed_witness :
    toolLoop envOkTool ((some true : Option Bool).getD tb0.fail_on_tool_error)
        (normalizeConv tb0.system_prompt [userHi] ++ [assistantOf (envOkTool.reply 0)])
        [tc0]
      = LoopOut.completed (([userHi] ++ [assistantOf (envOkTool.reply 0)])
          ++ [toolMsg tc0 (Json.str "42")])
    ∧ getResponse tb0 envOkTool 2 0 [userHi] true (some true)
      = consReq (buildRequest tb0 (normalizeConv tb0.system_prompt [userHi]) userHi.role)
          (getResponse tb0 envOkTool 1 1
            (([userHi] ++ [assistantOf (envOkTool.reply 0)])
              ++ [toolMsg tc0 (Json.str "42")])
            true (some tb0.fail_on_tool_error)) :=
  ⟨rfl, c10_override_not_recursed tb0 envOkTool 1 0 [userHi] (some true) userHi [tc0]
      (([userHi] ++ [assistantOf (envOkTool.reply 0)]) ++ [toolMsg tc0 (Json.str "42")])
      rfl rfl (List.cons_ne_nil tc0 []) rfl⟩
